import Mathlib

/-
Verification of the SlackToSheet monitor (src/slack_to_sheet.py) against its
natural-language specification.

The Python program is shallowly embedded below.  External collaborators
(the Slack client, the Google Sheets client, the file system and the json
module) are modelled as explicit inputs: every network or file response the
code consumes in one monitor cycle is a field of a `World` / `Env` /
`SheetStore` value, and the embedded functions compute exactly what the
Python control flow does with those responses.  Machine-level pieces that
the code calls into (the MD5 hash from hashlib, UTC timestamp formatting
from datetime) are implemented concretely over `Nat`.
-/

namespace SlackToSheet

/-! ## MD5 (hashlib.md5(...).hexdigest())

A byte is a `Nat < 256`; a word is a `Nat < 2^32`.  This mirrors RFC 1321,
which is what `hashlib.md5` computes. -/

/-- Left-rotation of a 32-bit word represented as a `Nat`. -/
def rotl32 (x s : Nat) : Nat :=
  ((x <<< s) % 4294967296) ||| (x >>> (32 - s))

/-- The 64 MD5 round constants `K[i] = floor(abs(sin(i+1)) * 2^32)`. -/
def md5K : List Nat :=
  [0xd76aa478, 0xe8c7b756, 0x242070db, 0xc1bdceee,
   0xf57c0faf, 0x4787c62a, 0xa8304613, 0xfd469501,
   0x698098d8, 0x8b44f7af, 0xffff5bb1, 0x895cd7be,
   0x6b901122, 0xfd987193, 0xa679438e, 0x49b40821,
   0xf61e2562, 0xc040b340, 0x265e5a51, 0xe9b6c7aa,
   0xd62f105d, 0x02441453, 0xd8a1e681, 0xe7d3fbc8,
   0x21e1cde6, 0xc33707d6, 0xf4d50d87, 0x455a14ed,
   0xa9e3e905, 0xfcefa3f8, 0x676f02d9, 0x8d2a4c8a,
   0xfffa3942, 0x8771f681, 0x6d9d6122, 0xfde5380c,
   0xa4beea44, 0x4bdecfa9, 0xf6bb4b60, 0xbebfbc70,
   0x289b7ec6, 0xeaa127fa, 0xd4ef3085, 0x04881d05,
   0xd9d4d039, 0xe6db99e5, 0x1fa27cf8, 0xc4ac5665,
   0xf4292244, 0x432aff97, 0xab9423a7, 0xfc93a039,
   0x655b59c3, 0x8f0ccc92, 0xffeff47d, 0x85845dd1,
   0x6fa87e4f, 0xfe2ce6e0, 0xa3014314, 0x4e0811a1,
   0xf7537e82, 0xbd3af235, 0x2ad7d2bb, 0xeb86d391]

/-- The 64 MD5 per-round left-rotation amounts. -/
def md5S : List Nat :=
  [7, 12, 17, 22, 7, 12, 17, 22, 7, 12, 17, 22, 7, 12, 17, 22,
   5, 9, 14, 20, 5, 9, 14, 20, 5, 9, 14, 20, 5, 9, 14, 20,
   4, 11, 16, 23, 4, 11, 16, 23, 4, 11, 16, 23, 4, 11, 16, 23,
   6, 10, 15, 21, 6, 10, 15, 21, 6, 10, 15, 21, 6, 10, 15, 21]

/-- The MD5 nonlinear function for round `i` applied to words `b c d`. -/
def md5F (i b c d : Nat) : Nat :=
  if i < 16 then (b &&& c) ||| ((b ^^^ 4294967295) &&& d)
  else if i < 32 then (d &&& b) ||| ((d ^^^ 4294967295) &&& c)
  else if i < 48 then b ^^^ c ^^^ d
  else c ^^^ (b ||| (d ^^^ 4294967295))

/-- The MD5 message-word index used in round `i`. -/
def md5G (i : Nat) : Nat :=
  if i < 16 then i
  else if i < 32 then (5 * i + 1) % 16
  else if i < 48 then (3 * i + 5) % 16
  else (7 * i) % 16

/-- Split a list into consecutive chunks of `k` elements (fuelled recursion;
the fuel `l.length` always suffices for `k > 0`). -/
def chunksGo {α : Type} (k : Nat) : Nat → List α → List (List α)
  | 0, _ => []
  | _, [] => []
  | Nat.succ fuel, l => l.take k :: chunksGo k fuel (l.drop k)

/-- Split a list into consecutive chunks of `k` elements. -/
def chunksOf {α : Type} (k : Nat) (l : List α) : List (List α) :=
  chunksGo k l.length l

/-- The `k` little-endian bytes of `n`. -/
def bytesLE (k n : Nat) : List Nat :=
  (List.range k).map (fun i => (n >>> (8 * i)) % 256)

/-- Interpret a chunk of four bytes as a little-endian 32-bit word. -/
def le32 (bs : List Nat) : Nat :=
  bs.foldr (fun b acc => b + 256 * acc) 0

/-- MD5 padding: append `0x80`, zero bytes to reach 56 mod 64, then the
original bit length as a 64-bit little-endian quantity. -/
def md5Pad (msg : List Nat) : List Nat :=
  let len := msg.length
  let zeros := (119 - (len % 64)) % 64
  msg ++ [128] ++ List.replicate zeros 0 ++ bytesLE 8 ((len * 8) % 18446744073709551616)

/-- Process one 64-byte chunk, updating the four-word MD5 state. -/
def md5ProcessChunk (st : Nat × Nat × Nat × Nat) (chunk : List Nat) : Nat × Nat × Nat × Nat :=
  let M := (chunksOf 4 chunk).map le32
  let (a0, b0, c0, d0) := st
  let stepped := (List.range 64).foldl
    (fun (abcd : Nat × Nat × Nat × Nat) i =>
      let (a, b, c, d) := abcd
      let f := (md5F i b c d + a + md5K.getD i 0 + M.getD (md5G i) 0) % 4294967296
      (d, (b + rotl32 f (md5S.getD i 0)) % 4294967296, b, c))
    (a0, b0, c0, d0)
  let (a, b, c, d) := stepped
  ((a0 + a) % 4294967296, (b0 + b) % 4294967296,
   (c0 + c) % 4294967296, (d0 + d) % 4294967296)

/-- One lower-case hexadecimal digit. -/
def hexDigit (n : Nat) : String :=
  String.singleton (Char.ofNat (if n < 10 then 48 + n else 87 + n))

/-- Two lower-case hexadecimal digits of a byte. -/
def byteHex (b : Nat) : String :=
  hexDigit (b / 16) ++ hexDigit (b % 16)

/-- `hashlib.md5(bytes).hexdigest()`: the 32-character lower-case hex digest
of a byte sequence. -/
def md5Hex (msg : List Nat) : String :=
  let (a, b, c, d) :=
    (chunksOf 64 (md5Pad msg)).foldl md5ProcessChunk
      (1732584193, 4023233417, 2562383102, 271733878)
  String.join ((([a, b, c, d].map (bytesLE 4)).foldr (· ++ ·) []).map byteHex)

/-- UTF-8 bytes of a string, as `str.encode()` produces them. -/
def strBytes (s : String) : List Nat :=
  s.toUTF8.toList.map (fun b => b.toNat)

/-! ## Data model

A Slack message is a JSON object; the program reads the keys `ts`, `user`,
`text`, `thread_ts` and `reactions` with `dict.get`, so each is modelled as
an `Option` (missing key = `none`) with the code's defaults applied at each
use site, exactly where the Python applies them. -/

/-- One entry of a message's `reactions` list; the code reads
`reaction.get("name", "")`. -/
structure Reaction where
  name : Option String
deriving DecidableEq

/-- A Slack message as consumed by the program. -/
structure Message where
  ts : Option String
  user : Option String
  text : Option String
  thread_ts : Option String
  reactions : Option (List Reaction)
deriving DecidableEq

/-- `TRIGGER_EMOJIS` (line 24); the Python set is modelled as a list, used
only through membership. -/
def TRIGGER_EMOJIS : List String :=
  ["form", "docgen", "relayflag", "box-apps", "box-sign"]

/-- `SlackSheetsMonitor._get_message_id` (lines 96-99): MD5 hex digest of
`f"{ts}-{user}-{text[:50]}"` with missing fields defaulting to `""`. -/
def getMessageId (m : Message) : String :=
  md5Hex (strBytes (m.ts.getD "" ++ "-" ++ m.user.getD "" ++ "-" ++ (m.text.getD "").take 50))

/-- `SlackSheetsMonitor.has_trigger_emoji` (lines 188-198): the names of the
message's reactions that belong to `TRIGGER_EMOJIS`, in the order of the
message's own reactions list. -/
def hasTriggerEmoji (m : Message) : List String :=
  ((m.reactions.getD []).map (fun r => r.name.getD "")).filter (fun n => n ∈ TRIGGER_EMOJIS)

/-! ## Timestamp formatting (lines 256-265)

The code runs `datetime.fromtimestamp(float(ts), tz=timezone.utc)` and
formats with `"%Y-%m-%d %H:%M:%S UTC"`.  `float(...)` is modelled for the
inputs the program meets (non-negative decimal numerals, the format of
Slack `ts` values): any other string is unparsable and takes the `except`
branch.  Formatting truncates to whole seconds, so only the floor of the
parsed value matters. -/

/-- Digits to a natural number, most significant first. -/
def digitsToNat (l : List Char) : Nat :=
  l.foldl (fun a c => a * 10 + (c.toNat - 48)) 0

/-- `float(s)` followed by truncation to whole seconds, for non-negative
decimal numerals `digits[.digits]`; `none` models `float` raising
`ValueError`. -/
def pyParseFloat (s : String) : Option Nat :=
  let cs := s.data
  match cs.span (fun c => c != '.') with
  | (ip, []) =>
    if ip ≠ [] ∧ ip.all Char.isDigit then some (digitsToNat ip) else none
  | (ip, _dot :: fp) =>
    if ip.all Char.isDigit ∧ fp.all Char.isDigit ∧ (ip ≠ [] ∨ fp ≠ []) then
      some (digitsToNat ip)
    else none

/-- Left-pad a number to two digits. -/
def pad2 (n : Nat) : String :=
  if n < 10 then "0" ++ toString n else toString n

/-- Left-pad a number to four digits. -/
def pad4 (n : Nat) : String :=
  (if n < 10 then "000" else if n < 100 then "00" else if n < 1000 then "0" else "") ++ toString n

/-- Format `n` seconds since the Unix epoch as `YYYY-MM-DD HH:MM:SS UTC`
(proleptic Gregorian civil-from-days conversion, as `datetime` computes for
UTC). -/
def fmtUtc (n : Nat) : String :=
  let days := n / 86400
  let secs := n % 86400
  let z := days + 719468
  let era := z / 146097
  let doe := z % 146097
  let yoe := (doe - doe / 1460 + doe / 36524 - doe / 146096) / 365
  let y := yoe + era * 400
  let doy := doe - (365 * yoe + yoe / 4 - yoe / 100)
  let mp := (5 * doy + 2) / 153
  let d := doy - (153 * mp + 2) / 5 + 1
  let mo := if mp < 10 then mp + 3 else mp - 9
  let yr := if mo ≤ 2 then y + 1 else y
  pad4 yr ++ "-" ++ pad2 mo ++ "-" ++ pad2 d ++ " " ++
    pad2 (secs / 3600) ++ ":" ++ pad2 (secs % 3600 / 60) ++ ":" ++ pad2 (secs % 60) ++ " UTC"

/-- Lines 256-265 of `fetch_new_triggered_messages`: empty or missing `ts`
gives `"Unknown"`; a parsable `ts` is formatted; an unparsable non-empty
`ts` takes the `except` branch, which keeps the raw string. -/
def formatTimestamp (ts : Option String) : String :=
  let timestamp := ts.getD ""
  if timestamp = "" then "Unknown"
  else
    match pyParseFloat timestamp with
    | some n => fmtUtc n
    | none => timestamp

/-! ## Collaborator environment and the fetch loop (lines 200-290) -/

/-- The per-cycle results of the Slack helper calls the loop makes.  Each
helper (`get_channel_name`, `get_user_name`, `get_permalink`,
`get_thread_replies`, lines 136-186) already degrades internally to a
fallback value on any error, so each is modelled as a total function from
its argument to the value the helper returns. -/
structure Env where
  channelName : String
  userName : String → String
  permalink : String → String
  threadMessages : String → List Message

/-- Error raised by the Slack client, caught at lines 285-290. -/
inductive SlackErr where
  | apiError
  | exc
deriving DecidableEq

/-- The `conversations_history` response: its `ok` flag and its
`messages` list (`result.get("messages", [])` applied). -/
structure HistoryResp where
  ok : Bool
  messages : List Message
deriving DecidableEq

/-- Thread handling for one accepted message (lines 243-254): parent text is
the first thread message's text; replies are the texts of the remaining
thread messages whose `ts` differs from the message's own `ts`. -/
def threadContext (env : Env) (m : Message) : String × String :=
  match m.thread_ts with
  | none => ("", "")
  | some tts =>
    if tts = "" then ("", "")
    else
      match env.threadMessages tts with
      | [] => ("", "")
      | first :: rest =>
        (first.text.getD "",
         String.intercalate "\n"
           ((rest.filter (fun msg => msg.ts != m.ts)).map (fun msg => msg.text.getD "")))

/-- The dictionary appended for one accepted message (lines 267-277). -/
structure Record where
  id : String
  timestamp : String
  user : String
  channel : String
  reacted_message_text : String
  parent_message : String
  thread_replies : String
  link : String
  trigger_emojis : String
deriving DecidableEq

/-- Build the record for one accepted message (lines 232-277). -/
def mkRecord (env : Env) (ch : String) (m : Message) : Record :=
  { id := getMessageId m
    timestamp := formatTimestamp m.ts
    user := env.userName (m.user.getD "Unknown")
    channel := ch
    reacted_message_text := m.text.getD ""
    parent_message := (threadContext env m).1
    thread_replies := (threadContext env m).2
    link := env.permalink (m.ts.getD "")
    trigger_emojis := String.intercalate ", " (hasTriggerEmoji m) }

/-- `set.add`: the in-memory `processed_messages` set is modelled as a
duplicate-free list; insertion keeps the list unchanged when the element is
present. -/
def pyInsert (s : List String) (x : String) : List String :=
  if x ∈ s then s else s ++ [x]

/-- The per-message loop of `fetch_new_triggered_messages` (lines 221-280):
skip a message whose id is already processed; skip a message with no
trigger reactions; otherwise collect its record and mark its id as
processed immediately (line 280, before any sheet append). -/
def processLoop (env : Env) (ch : String) : List Message → List String → List Record × List String
  | [], s => ([], s)
  | m :: rest, s =>
    if getMessageId m ∈ s then processLoop env ch rest s
    else if hasTriggerEmoji m = [] then processLoop env ch rest s
    else
      (mkRecord env ch m :: (processLoop env ch rest (pyInsert s (getMessageId m))).1,
       (processLoop env ch rest (pyInsert s (getMessageId m))).2)

/-- `SlackSheetsMonitor.fetch_new_triggered_messages` (lines 200-290):
returns the collected records and the updated in-memory processed set.  A
raised Slack error or an `ok = false` response yields no records and leaves
the processed set unchanged. -/
def fetchNewTriggeredMessages (env : Env) (history : Except SlackErr HistoryResp)
    (processed : List String) : List Record × List String :=
  match history with
  | .error _ => ([], processed)
  | .ok resp =>
    if resp.ok = true then processLoop env env.channelName resp.messages processed
    else ([], processed)

/-- The message window the loop actually iterates over. -/
def messagesOf (history : Except SlackErr HistoryResp) : List Message :=
  match history with
  | .error _ => []
  | .ok resp => if resp.ok = true then resp.messages else []

/-! ## Sheet writer (lines 292-364)

`googleapiclient` store failures surface as `HttpError`; the store's
responses to the (at most three) API calls of one `append_to_sheet` run are
fields of `SheetStore`, and the embedding also returns the trace of calls
issued, so that "no store interaction" and "a single batched append" are
statable. -/

/-- A Google Sheets API failure (`HttpError`). -/
inductive HttpErr where
  | httpError
deriving DecidableEq

/-- The store's responses for one `append_to_sheet` run.  `headerRead` is
the `values` field of the `A1:H1` get (with `get("values", [])` applied);
the two append results carry the updated-cell count the code only prints. -/
structure SheetStore where
  headerRead : Except HttpErr (List (List String))
  headerAppendResult : Except HttpErr Nat
  dataAppendResult : Except HttpErr Nat

/-- One Sheets API call, with its range argument. -/
inductive SheetCall where
  | getValues (range : String)
  | appendValues (range : String) (rows : List (List String))
deriving DecidableEq

/-- The fixed header row (lines 327-330). -/
def SHEET_HEADERS : List String :=
  ["Timestamp", "User", "Channel", "Reacted Message Text",
   "Parent Message", "Thread Replies", "Link", "Trigger Emojis"]

/-- Serialization of one record into the fixed 8-column row
(lines 304-313). -/
def serializeRow (r : Record) : List String :=
  [r.timestamp, r.user, r.channel, r.reacted_message_text,
   r.parent_message, r.thread_replies, r.link, r.trigger_emojis]

/-- The header-ensuring phase (lines 316-344): read `A1:H1`; if the read
succeeds and is empty, append the header row.  `except HttpError: pass`
swallows a failed read (skipping the header append) and also a failed
header append; neither affects what follows. -/
def headerPhase (store : SheetStore) : List SheetCall :=
  match store.headerRead with
  | .error _ => [.getValues "Sheet2!A1:H1"]
  | .ok values =>
    if values = [] then
      [.getValues "Sheet2!A1:H1", .appendValues "Sheet2!A1" [SHEET_HEADERS]]
    else [.getValues "Sheet2!A1:H1"]

/-- `SlackSheetsMonitor.append_to_sheet` (lines 292-364): empty data returns
`true` with no store calls; otherwise the header phase runs, then one
batched append of all serialized rows; the result is `false` exactly when
that data append raises. -/
def appendToSheet (store : SheetStore) (data : List Record) : Bool × List SheetCall :=
  if data = [] then (true, [])
  else
    match store.dataAppendResult with
    | .error _ =>
      (false, headerPhase store ++ [SheetCall.appendValues "Sheet2!A:H" (data.map serializeRow)])
    | .ok _ =>
      (true, headerPhase store ++ [SheetCall.appendValues "Sheet2!A:H" (data.map serializeRow)])

/-- The batches of rows handed to the data-range append among a call
trace. -/
def dataRowsSent (calls : List SheetCall) : List (List (List String)) :=
  calls.filterMap (fun c =>
    match c with
    | .appendValues r rows => if r = "Sheet2!A:H" then some rows else none
    | _ => none)

/-- All data rows appended across a call trace, flattened. -/
def appendedRows (calls : List SheetCall) : List (List String) :=
  (dataRowsSent calls).foldr (fun rows acc => rows ++ acc) []

/-! ## State persistence (lines 70-94) -/

/-- A file-system / OS error. -/
inductive IoErr where
  | ioError
deriving DecidableEq

/-- The parsed content of `slack_monitor_state.json` as `_load_state` reads
it: `state.get('processed_messages', [])` means the key is optional. -/
structure SavedStateData where
  processed_messages : Option (List String)
deriving DecidableEq

/-- `set(l)`: collapse a list to its distinct elements. -/
def pySetOfList (l : List String) : List String :=
  l.foldl pyInsert []

/-- `SlackSheetsMonitor._load_state` (lines 70-82): a missing file keeps the
initial empty set; a read or parse error is caught and resets to the empty
set; otherwise the stored list becomes the set.  The function is total: no
error ever propagates to the caller. -/
def loadState (file : Option (Except IoErr SavedStateData)) : List String :=
  match file with
  | none => []
  | some (.error _) => []
  | some (.ok st) => pySetOfList (st.processed_messages.getD [])

/-- JSON string-character escaping as `json.dump` performs it for the
characters that can occur in this program's state (fingerprints are hex
digests; times are ISO strings). -/
def escChar (c : Char) : String :=
  if c = '"' then "\\\"" else if c = '\\' then "\\\\" else if c = '\n' then "\\n"
  else if c = '\t' then "\\t" else if c = '\r' then "\\r" else String.singleton c

/-- JSON escaping of a whole string. -/
def jsonEscape (s : String) : String :=
  String.join (s.data.map escChar)

/-- A JSON string literal. -/
def jsonStr (s : String) : String :=
  "\"" ++ jsonEscape s ++ "\""

/-- The exact text `json.dump(state, f, indent=2)` writes for
`{'processed_messages': fps, 'last_check_time': time}` (lines 87-92). -/
def stateJson (fps : List String) (time : String) : String :=
  "\x7b\n  " ++ jsonStr "processed_messages" ++ ": " ++
  (if fps = [] then "[]"
   else "[\n    " ++ String.intercalate ",\n    " (fps.map jsonStr) ++ "\n  ]") ++
  ",\n  " ++ jsonStr "last_check_time" ++ ": " ++ jsonStr time ++ "\n\x7d"

/-- `SlackSheetsMonitor._save_state` (lines 84-94) writes the state file in
place with `open(STATE_FILE, 'w')` followed by sequential writes.  An
interruption part-way therefore leaves some prefix of the new content on
disk (the open itself truncates to the empty prefix).  `writeStates c`
enumerates the possible on-disk contents during such a write. -/
def writeStates (content : String) : List String :=
  (List.range (content.length + 1)).map (fun k => ((content.data.take k).asString))

/-- The completed effect of `_save_state` (lines 84-94): when the write
succeeds the full current set plus the current UTC time is on disk; a
raised error is caught inside `_save_state` (line 93) and nothing complete
is written.  Either way nothing propagates. -/
def saveState (saveOk : Bool) (mem : List String) (now : String) : Option String :=
  if saveOk then some (stateJson mem now) else none

/-! ## The monitor cycle (lines 366-390) -/

/-- Everything outside the process that one `run_monitor_cycle` invocation
consumes. -/
structure World where
  env : Env
  history : Except SlackErr HistoryResp
  store : SheetStore
  saveOk : Bool
  now : String

/-- The observable outcome of one cycle: the returned count, the in-memory
processed set afterwards, the state-file content if a complete write
happened, and the Sheets calls issued. -/
structure CycleResult where
  count : Nat
  mem : List String
  persisted : Option String
  calls : List SheetCall
deriving DecidableEq

/-- `SlackSheetsMonitor.run_monitor_cycle` (lines 366-390): fetch; if any
records were collected, append them; on append success save state and
return the record count, otherwise return 0.  Note the processed set was
already updated inside the fetch. -/
def runMonitorCycle (w : World) (processed : List String) : CycleResult :=
  if (fetchNewTriggeredMessages w.env w.history processed).1 = [] then
    { count := 0, mem := (fetchNewTriggeredMessages w.env w.history processed).2
      persisted := none, calls := [] }
  else if (appendToSheet w.store (fetchNewTriggeredMessages w.env w.history processed).1).1 = true then
    { count := (fetchNewTriggeredMessages w.env w.history processed).1.length
      mem := (fetchNewTriggeredMessages w.env w.history processed).2
      persisted := saveState w.saveOk (fetchNewTriggeredMessages w.env w.history processed).2 w.now
      calls := (appendToSheet w.store (fetchNewTriggeredMessages w.env w.history processed).1).2 }
  else
    { count := 0, mem := (fetchNewTriggeredMessages w.env w.history processed).2
      persisted := none
      calls := (appendToSheet w.store (fetchNewTriggeredMessages w.env w.history processed).1).2 }

/-- `Except.isOk` as a plain function over our store results. -/
def isOkB {ε α : Type} : Except ε α → Bool
  | .ok _ => true
  | .error _ => false

/-! ## Concrete example values, used by the witness theorems -/

/-- A concrete collaborator environment. -/
def exEnv : Env :=
  { channelName := "#general"
    userName := fun _ => "Alice"
    permalink := fun _ => "https://slack.example/p1"
    threadMessages := fun _ => [] }

/-- A message carrying the trigger reaction `form`. -/
def exMsg : Message :=
  { ts := some "1700000000.000100", user := some "U1", text := some "hello"
    thread_ts := none, reactions := some [{ name := some "form" }] }

/-- The same message core with different (absent) reaction annotations. -/
def exMsgNoReacts : Message :=
  { ts := some "1700000000.000100", user := some "U1", text := some "hello"
    thread_ts := none, reactions := none }

/-- A history response containing one triggering message. -/
def exHistory : Except SlackErr HistoryResp :=
  .ok { ok := true, messages := [exMsg] }

/-- A store on which every call succeeds. -/
def exStoreOk : SheetStore :=
  { headerRead := .ok [], headerAppendResult := .ok 8, dataAppendResult := .ok 8 }

/-- A store whose data append raises `HttpError`. -/
def exStoreFail : SheetStore :=
  { headerRead := .ok [], headerAppendResult := .ok 8, dataAppendResult := .error .httpError }

/-- A store whose header-range read raises `HttpError`. -/
def exStoreHdrFail : SheetStore :=
  { headerRead := .error .httpError, headerAppendResult := .ok 8, dataAppendResult := .ok 8 }

/-- A world where everything succeeds. -/
def exWorldOk : World :=
  { env := exEnv, history := exHistory, store := exStoreOk, saveOk := true
    now := "2026-10-12T00:00:00+00:00" }

/-- A world where the sheet data append fails. -/
def exWorldFail : World :=
  { env := exEnv, history := exHistory, store := exStoreFail, saveOk := true
    now := "2026-10-12T00:00:00+00:00" }

/-- A world where the sheet append succeeds but the state-file write fails. -/
def exWorldNoSave : World :=
  { env := exEnv, history := exHistory, store := exStoreOk, saveOk := false
    now := "2026-10-12T00:00:00+00:00" }

/-- A concrete enriched record. -/
def exRecord : Record :=
  { id := "r1", timestamp := "2023-11-14 22:13:20 UTC", user := "Alice"
    channel := "#general", reacted_message_text := "hello", parent_message := ""
    thread_replies := "", link := "https://slack.example/p1", trigger_emojis := "form" }

/-! ## Lemmas about the in-memory seen set and the fetch loop -/

theorem mem_pyInsert {y x : String} {s : List String} :
    y ∈ pyInsert s x ↔ y ∈ s ∨ y = x := by
  unfold pyInsert
  by_cases h : x ∈ s
  · rw [if_pos h]
    constructor
    · exact fun hy => Or.inl hy
    · rintro (hy | rfl)
      · exact hy
      · exact h
  · rw [if_neg h]
    simp

theorem processLoop_mem_mono (env : Env) (ch : String) (msgs : List Message)
    {s : List String} {x : String} (hx : x ∈ s) :
    x ∈ (processLoop env ch msgs s).2 := by
  induction msgs generalizing s with
  | nil => simpa [processLoop] using hx
  | cons m rest ih =>
    by_cases h1 : getMessageId m ∈ s
    · simp only [processLoop]
      rw [if_pos h1]
      exact ih hx
    · by_cases h2 : hasTriggerEmoji m = []
      · simp only [processLoop]
        rw [if_neg h1, if_pos h2]
        exact ih hx
      · simp only [processLoop]
        rw [if_neg h1, if_neg h2]
        exact ih (mem_pyInsert.mpr (Or.inl hx))

theorem processLoop_marks (env : Env) (ch : String) (m : Message)
    (ht : hasTriggerEmoji m ≠ []) :
    ∀ (msgs : List Message) (s : List String), m ∈ msgs →
      getMessageId m ∈ (processLoop env ch msgs s).2 := by
  intro msgs
  induction msgs with
  | nil => intro s hm; cases hm
  | cons m0 rest ih =>
    intro s hm
    rcases List.mem_cons.mp hm with rfl | hmr
    · by_cases h1 : getMessageId m ∈ s
      · simp only [processLoop]
        rw [if_pos h1]
        exact processLoop_mem_mono env ch rest h1
      · simp only [processLoop]
        rw [if_neg h1, if_neg ht]
        exact processLoop_mem_mono env ch rest (mem_pyInsert.mpr (Or.inr rfl))
    · by_cases h1 : getMessageId m0 ∈ s
      · simp only [processLoop]
        rw [if_pos h1]
        exact ih s hmr
      · by_cases h2 : hasTriggerEmoji m0 = []
        · simp only [processLoop]
          rw [if_neg h1, if_pos h2]
          exact ih s hmr
        · simp only [processLoop]
          rw [if_neg h1, if_neg h2]
          exact ih (pyInsert s (getMessageId m0)) hmr

theorem processLoop_covers (env : Env) (ch : String) (msgs : List Message) (s : List String) :
    ∀ m ∈ msgs, getMessageId m ∈ (processLoop env ch msgs s).2 ∨ hasTriggerEmoji m = [] := by
  intro m hm
  by_cases ht : hasTriggerEmoji m = []
  · exact Or.inr ht
  · exact Or.inl (processLoop_marks env ch m ht msgs s hm)

theorem processLoop_noop (env : Env) (ch : String) {msgs : List Message} {s : List String}
    (h : ∀ m ∈ msgs, getMessageId m ∈ s ∨ hasTriggerEmoji m = []) :
    processLoop env ch msgs s = ([], s) := by
  induction msgs with
  | nil => rfl
  | cons m0 rest ih =>
    have hrest : ∀ m ∈ rest, getMessageId m ∈ s ∨ hasTriggerEmoji m = [] :=
      fun m hm => h m (List.mem_cons_of_mem _ hm)
    rcases h m0 (List.mem_cons_self _ _) with h1 | h2
    · simp only [processLoop]
      rw [if_pos h1]
      exact ih hrest
    · by_cases h1 : getMessageId m0 ∈ s
      · simp only [processLoop]
        rw [if_pos h1]
        exact ih hrest
      · simp only [processLoop]
        rw [if_neg h1, if_pos h2]
        exact ih hrest

theorem processLoop_idem (env : Env) (ch : String) (msgs : List Message) (s : List String) :
    processLoop env ch msgs ((processLoop env ch msgs s).2) =
      ([], (processLoop env ch msgs s).2) :=
  processLoop_noop env ch (processLoop_covers env ch msgs s)

theorem processLoop_sound (env : Env) (ch : String) {msgs : List Message} {s : List String}
    {r : Record} (hr : r ∈ (processLoop env ch msgs s).1) :
    ∃ m, m ∈ msgs ∧ hasTriggerEmoji m ≠ [] ∧ r = mkRecord env ch m := by
  induction msgs generalizing s with
  | nil => simp [processLoop] at hr
  | cons m0 rest ih =>
    by_cases h1 : getMessageId m0 ∈ s
    · simp only [processLoop] at hr
      rw [if_pos h1] at hr
      obtain ⟨m, hm, htr, he⟩ := ih hr
      exact ⟨m, List.mem_cons_of_mem _ hm, htr, he⟩
    · by_cases h2 : hasTriggerEmoji m0 = []
      · simp only [processLoop] at hr
        rw [if_neg h1, if_pos h2] at hr
        obtain ⟨m, hm, htr, he⟩ := ih hr
        exact ⟨m, List.mem_cons_of_mem _ hm, htr, he⟩
      · simp only [processLoop] at hr
        rw [if_neg h1, if_neg h2] at hr
        rcases List.mem_cons.mp hr with rfl | hr'
        · exact ⟨m0, List.mem_cons_self _ _, h2, rfl⟩
        · obtain ⟨m, hm, htr, he⟩ := ih hr'
          exact ⟨m, List.mem_cons_of_mem _ hm, htr, he⟩

theorem processLoop_complete (env : Env) (ch : String) (m : Message)
    (ht : hasTriggerEmoji m ≠ []) :
    ∀ (msgs : List Message) (s : List String), (msgs.map getMessageId).Nodup → m ∈ msgs →
      getMessageId m ∉ s → mkRecord env ch m ∈ (processLoop env ch msgs s).1 := by
  intro msgs
  induction msgs with
  | nil => intro s _ hm _; cases hm
  | cons m0 rest ih =>
    intro s hnd hm hs
    rw [List.map_cons] at hnd
    have hnd0 : getMessageId m0 ∉ rest.map getMessageId := (List.nodup_cons.mp hnd).1
    have hnd' : (rest.map getMessageId).Nodup := (List.nodup_cons.mp hnd).2
    rcases List.mem_cons.mp hm with rfl | hmr
    · simp only [processLoop]
      rw [if_neg hs, if_neg ht]
      exact List.mem_cons_self _ _
    · by_cases h1 : getMessageId m0 ∈ s
      · simp only [processLoop]
        rw [if_pos h1]
        exact ih s hnd' hmr hs
      · by_cases h2 : hasTriggerEmoji m0 = []
        · simp only [processLoop]
          rw [if_neg h1, if_pos h2]
          exact ih s hnd' hmr hs
        · simp only [processLoop]
          rw [if_neg h1, if_neg h2]
          apply List.mem_cons_of_mem
          apply ih (pyInsert s (getMessageId m0)) hnd' hmr
          intro hmem
          rcases mem_pyInsert.mp hmem with hin | heq
          · exact hs hin
          · exact hnd0 (heq ▸ List.mem_map_of_mem getMessageId hmr)

theorem listExistsMemCons {α : Type} {P : α → Prop} {a : α} {l : List α} :
    (∃ x ∈ a :: l, P x) ↔ P a ∨ ∃ x ∈ l, P x := by
  constructor
  · rintro ⟨x, hx, hp⟩
    rcases List.mem_cons.mp hx with rfl | hx'
    · exact Or.inl hp
    · exact Or.inr ⟨x, hx', hp⟩
  · rintro (hp | ⟨x, hx, hp⟩)
    · exact ⟨a, List.mem_cons_self _ _, hp⟩
    · exact ⟨x, List.mem_cons_of_mem _ hx, hp⟩

theorem processLoop_countP (env : Env) (ch : String) (f : String) :
    ∀ (msgs : List Message) (s : List String),
      ((processLoop env ch msgs s).1.countP (fun r => r.id == f)) =
        if f ∈ s then 0
        else if ∃ m ∈ msgs, getMessageId m = f ∧ hasTriggerEmoji m ≠ [] then 1 else 0 := by
  intro msgs
  induction msgs with
  | nil => intro s; simp [processLoop]
  | cons m0 rest ih =>
    intro s
    by_cases h1 : getMessageId m0 ∈ s
    · simp only [processLoop]
      rw [if_pos h1, ih]
      by_cases hf : f ∈ s
      · simp [hf]
      · have hnp : ¬(getMessageId m0 = f ∧ hasTriggerEmoji m0 ≠ []) := by
          rintro ⟨he, _⟩
          exact hf (he ▸ h1)
        simp [hf, listExistsMemCons, hnp]
    · by_cases h2 : hasTriggerEmoji m0 = []
      · simp only [processLoop]
        rw [if_neg h1, if_pos h2, ih]
        have hnp : ¬(getMessageId m0 = f ∧ hasTriggerEmoji m0 ≠ []) := by
          rintro ⟨_, ht⟩
          exact ht h2
        by_cases hf : f ∈ s
        · simp [hf]
        · simp [hf, listExistsMemCons, hnp]
      · simp only [processLoop]
        rw [if_neg h1, if_neg h2]
        rw [List.countP_cons, ih]
        by_cases he : getMessageId m0 = f
        · subst he
          have hff : getMessageId m0 ∈ pyInsert s (getMessageId m0) :=
            mem_pyInsert.mpr (Or.inr rfl)
          have hid : ((mkRecord env ch m0).id == getMessageId m0) = true := by
            simp [mkRecord]
          simp [h1, hff, hid, listExistsMemCons, h2]
        · have hff : (f ∈ pyInsert s (getMessageId m0)) ↔ f ∈ s := by
            rw [mem_pyInsert]
            constructor
            · rintro (h | h)
              · exact h
              · exact absurd h.symm he
            · exact Or.inl
          have hid : ((mkRecord env ch m0).id == f) = false := by
            simpa [mkRecord] using he
          have hnp : ¬(getMessageId m0 = f ∧ hasTriggerEmoji m0 ≠ []) := by
            rintro ⟨heq, _⟩
            exact he heq
          by_cases hf : f ∈ s
          · simp [hf, hff, hid]
          · simp [hf, hff, hid, listExistsMemCons, hnp]

theorem fetch_eq (env : Env) (history : Except SlackErr HistoryResp) (p : List String) :
    fetchNewTriggeredMessages env history p =
      processLoop env env.channelName (messagesOf history) p := by
  cases history with
  | error e => simp [fetchNewTriggeredMessages, messagesOf, processLoop]
  | ok resp =>
    by_cases h : resp.ok = true
    · simp [fetchNewTriggeredMessages, messagesOf, h]
    · simp [fetchNewTriggeredMessages, messagesOf, h, processLoop]

theorem fetch_idem (env : Env) (history : Except SlackErr HistoryResp) (p : List String) :
    fetchNewTriggeredMessages env history ((fetchNewTriggeredMessages env history p).2) =
      ([], (fetchNewTriggeredMessages env history p).2) := by
  rw [fetch_eq, fetch_eq, processLoop_idem]

theorem runMonitorCycle_mem (w : World) (p : List String) :
    (runMonitorCycle w p).mem = (fetchNewTriggeredMessages w.env w.history p).2 := by
  unfold runMonitorCycle
  split
  · rfl
  · split <;> rfl

/-! ## Lemmas about the sheet writer and the cycle -/

theorem appendToSheet_result (store : SheetStore) (data : List Record) (hd : data ≠ []) :
    (appendToSheet store data).1 = isOkB store.dataAppendResult := by
  unfold appendToSheet
  rw [if_neg hd]
  cases store.dataAppendResult <;> rfl

theorem appendToSheet_calls (store : SheetStore) (data : List Record) (hd : data ≠ []) :
    (appendToSheet store data).2 =
      headerPhase store ++ [SheetCall.appendValues "Sheet2!A:H" (data.map serializeRow)] := by
  unfold appendToSheet
  rw [if_neg hd]
  cases store.dataAppendResult <;> rfl

theorem dataRowsSent_headerPhase (store : SheetStore) :
    dataRowsSent (headerPhase store) = [] := by
  unfold headerPhase
  split
  · rfl
  · split
    · rfl
    · rfl

theorem dataRowsSent_append (c1 c2 : List SheetCall) :
    dataRowsSent (c1 ++ c2) = dataRowsSent c1 ++ dataRowsSent c2 := by
  simp [dataRowsSent, List.filterMap_append]

theorem appendedRows_header_and_data (store : SheetStore) (rows : List (List String)) :
    appendedRows (headerPhase store ++ [SheetCall.appendValues "Sheet2!A:H" rows]) = rows := by
  unfold appendedRows
  rw [dataRowsSent_append, dataRowsSent_headerPhase]
  simp [dataRowsSent]

theorem runMonitorCycle_count_ok (w : World) (p : List String) (n : Nat)
    (h : w.store.dataAppendResult = Except.ok n) :
    (runMonitorCycle w p).count = (fetchNewTriggeredMessages w.env w.history p).1.length := by
  unfold runMonitorCycle
  by_cases hfr : (fetchNewTriggeredMessages w.env w.history p).1 = []
  · rw [if_pos hfr]
    simp [hfr]
  · have hap : (appendToSheet w.store (fetchNewTriggeredMessages w.env w.history p).1).1 = true := by
      rw [appendToSheet_result _ _ hfr, h]
      rfl
    rw [if_neg hfr, if_pos hap]

theorem runMonitorCycle_fail (w : World) (p : List String) (e : HttpErr)
    (h : w.store.dataAppendResult = Except.error e) :
    (runMonitorCycle w p).count = 0 ∧ (runMonitorCycle w p).persisted = none := by
  unfold runMonitorCycle
  by_cases hfr : (fetchNewTriggeredMessages w.env w.history p).1 = []
  · rw [if_pos hfr]
    exact ⟨rfl, rfl⟩
  · have hap : (appendToSheet w.store (fetchNewTriggeredMessages w.env w.history p).1).1 = false := by
      rw [appendToSheet_result _ _ hfr, h]
      rfl
    have hap' : ¬((appendToSheet w.store (fetchNewTriggeredMessages w.env w.history p).1).1 = true) := by
      simp [hap]
    rw [if_neg hfr, if_neg hap']
    exact ⟨rfl, rfl⟩

theorem runMonitorCycle_persisted_no_save (w : World) (p : List String)
    (hs : w.saveOk = false) :
    (runMonitorCycle w p).persisted = none := by
  unfold runMonitorCycle
  by_cases hfr : (fetchNewTriggeredMessages w.env w.history p).1 = []
  · rw [if_pos hfr]
  · by_cases hap : (appendToSheet w.store (fetchNewTriggeredMessages w.env w.history p).1).1 = true
    · rw [if_neg hfr, if_pos hap]
      simp [saveState, hs]
    · rw [if_neg hfr, if_neg hap]

theorem runMonitorCycle_calls (w : World) (p : List String)
    (hfr : (fetchNewTriggeredMessages w.env w.history p).1 ≠ []) :
    (runMonitorCycle w p).calls =
      (appendToSheet w.store (fetchNewTriggeredMessages w.env w.history p).1).2 := by
  unfold runMonitorCycle
  by_cases hap : (appendToSheet w.store (fetchNewTriggeredMessages w.env w.history p).1).1 = true
  · rw [if_neg hfr, if_pos hap]
  · rw [if_neg hfr, if_neg hap]

theorem runMonitorCycle_calls_empty (w : World) (p : List String)
    (hfr : (fetchNewTriggeredMessages w.env w.history p).1 = []) :
    (runMonitorCycle w p).calls = [] := by
  unfold runMonitorCycle
  rw [if_pos hfr]

theorem runMonitorCycle_count_empty (w : World) (p : List String)
    (hfr : (fetchNewTriggeredMessages w.env w.history p).1 = []) :
    (runMonitorCycle w p).count = 0 := by
  unfold runMonitorCycle
  rw [if_pos hfr]

/-! ## Sanity checks of the machine-level embeddings -/

set_option maxRecDepth 16384 in
/-- The MD5 implementation reproduces the RFC 1321 test vector for the empty
message. -/
theorem md5Hex_rfc_vector_empty : md5Hex [] = "d41d8cd98f00b204e9800998ecf8427e" := by
  rfl

/-- The timestamp formatter agrees with `datetime` on a known epoch value. -/
theorem fmtUtc_known_value : fmtUtc 1700000000 = "2023-11-14 22:13:20 UTC" := by
  rfl

/-! ## The claims -/

/-- Claim C3: the fingerprint generator is deterministic (equal inputs give the
identical fingerprint), and any two items agreeing on timestamp, author id
and the first 50 characters of body text receive the same fingerprint no
matter how their reaction annotations differ, since `_get_message_id` hashes
only those three fields. -/
theorem c3_fingerprint_deterministic_annotation_insensitive :
    (∀ m : Message, getMessageId m = getMessageId m) ∧
    (∀ m1 m2 : Message, m1.ts = m2.ts → m1.user = m2.user →
      (m1.text.getD "").take 50 = (m2.text.getD "").take 50 →
      getMessageId m1 = getMessageId m2) := by
  refine ⟨fun _ => rfl, fun m1 m2 h1 h2 h3 => ?_⟩
  unfold getMessageId
  rw [h1, h2, h3]

/-- Witness for C3: two concrete messages with identical core fields but
different reaction annotations get equal fingerprints. -/
theorem c3_witness :
    exMsg.ts = exMsgNoReacts.ts ∧ exMsg.user = exMsgNoReacts.user ∧
    (exMsg.text.getD "").take 50 = (exMsgNoReacts.text.getD "").take 50 ∧
    exMsg.reactions ≠ exMsgNoReacts.reactions ∧
    getMessageId exMsg = getMessageId exMsgNoReacts :=
  ⟨rfl, rfl, rfl, by decide,
   c3_fingerprint_deterministic_annotation_insensitive.2 exMsg exMsgNoReacts rfl rfl rfl⟩

/-- Claim C4 counterexample: for the non-empty unparsable timestamp `"abc"`
the code's `except` branch keeps the raw string, so the record's timestamp
field is `"abc"`, not the literal `"Unknown"` the claim requires. -/
theorem c4_counterexample :
    pyParseFloat "abc" = none ∧ formatTimestamp (some "abc") = "abc" ∧
    formatTimestamp (some "abc") ≠ "Unknown" :=
  ⟨rfl, rfl, by decide⟩

/-- Claim C4 (amended): the record's timestamp field is the formatted
`YYYY-MM-DD HH:MM:SS UTC` rendering when the timestamp parses; it is
`"Unknown"` when the timestamp is missing or empty; and it is the raw
timestamp string (not `"Unknown"`) when the timestamp is non-empty but
unparsable. -/
theorem c4_amended_timestamp_field :
    (∀ (env : Env) (ch : String) (m : Message),
        (mkRecord env ch m).timestamp = formatTimestamp m.ts) ∧
    (formatTimestamp none = "Unknown" ∧ formatTimestamp (some "") = "Unknown") ∧
    (∀ (s : String) (n : Nat), pyParseFloat s = some n → s ≠ "" →
        formatTimestamp (some s) = fmtUtc n) ∧
    (∀ s : String, s ≠ "" → pyParseFloat s = none → formatTimestamp (some s) = s) := by
  refine ⟨fun _ _ _ => rfl, ⟨rfl, rfl⟩, ?_, ?_⟩
  · intro s n hp hs
    unfold formatTimestamp
    simp [Option.getD, hs, hp]
  · intro s hs hp
    unfold formatTimestamp
    simp [Option.getD, hs, hp]

/-- Witness for the amended C4: a parsable Slack timestamp is formatted, and
the unparsable `"abc"` stays raw. -/
theorem c4_witness :
    pyParseFloat "1700000000.000100" = some 1700000000 ∧
    ("1700000000.000100" : String) ≠ "" ∧
    formatTimestamp (some "1700000000.000100") = fmtUtc 1700000000 ∧
    pyParseFloat "abc" = none ∧ ("abc" : String) ≠ "" ∧
    formatTimestamp (some "abc") = "abc" :=
  ⟨rfl, by decide, c4_amended_timestamp_field.2.2.1 _ _ rfl (by decide),
   rfl, by decide, c4_amended_timestamp_field.2.2.2 "abc" (by decide) rfl⟩

set_option maxRecDepth 16384 in
/-- Claim C5 (code bug): `_save_state` writes the state file in place rather
than via a temp-file-then-rename, so an interrupted write can leave on disk
a content (here the one-byte prefix consisting of the opening brace) that is
neither the complete old state nor the complete new state. -/
theorem c5_save_state_not_atomic :
    "\x7b" ∈ writeStates (stateJson ["d41d8cd98f00b204e9800998ecf8427e"]
        "2026-10-12T00:00:01+00:00") ∧
    "\x7b" ≠ stateJson [] "2026-10-12T00:00:00+00:00" ∧
    "\x7b" ≠ stateJson ["d41d8cd98f00b204e9800998ecf8427e"] "2026-10-12T00:00:01+00:00" := by
  refine ⟨?_, by decide, by decide⟩
  decide

/-- Claim C6: loading the seen set returns the empty set when the state file
is missing, returns the empty set when reading or parsing fails (the
exception is caught inside `_load_state`, so `loadState` is a total function
and no parse error reaches the caller), and otherwise returns the stored
fingerprint list as a set; a missing `processed_messages` key also yields
the empty set. -/
theorem c6_load_state_error_handling :
    loadState none = [] ∧
    (∀ e : IoErr, loadState (some (Except.error e)) = []) ∧
    loadState (some (Except.ok { processed_messages := none })) = [] ∧
    (∀ l : List String,
      loadState (some (Except.ok { processed_messages := some l })) = pySetOfList l) :=
  ⟨rfl, fun _ => rfl, rfl, fun _ => rfl⟩

/-- Claim C7: every emitted record originates from a message of the window
that has at least one trigger reaction (an item with none is never emitted),
and — when the window's fingerprints are pairwise distinct — every message
with at least one trigger reaction whose fingerprint is not yet in the seen
set is emitted, with exactly the matching annotation names joined in the
message's own reaction order. -/
theorem c7_trigger_filter_correctness (env : Env) (history : Except SlackErr HistoryResp)
    (p : List String) :
    (∀ r ∈ (fetchNewTriggeredMessages env history p).1,
        ∃ m ∈ messagesOf history, hasTriggerEmoji m ≠ [] ∧ r = mkRecord env env.channelName m) ∧
    (((messagesOf history).map getMessageId).Nodup →
      ∀ m ∈ messagesOf history, getMessageId m ∉ p → hasTriggerEmoji m ≠ [] →
        mkRecord env env.channelName m ∈ (fetchNewTriggeredMessages env history p).1 ∧
        (mkRecord env env.channelName m).trigger_emojis =
          String.intercalate ", " (hasTriggerEmoji m)) := by
  constructor
  · intro r hr
    rw [fetch_eq] at hr
    obtain ⟨m, hm, ht, he⟩ := processLoop_sound env env.channelName hr
    exact ⟨m, hm, ht, he⟩
  · intro hnd m hm hp ht
    rw [fetch_eq]
    exact ⟨processLoop_complete env env.channelName m ht (messagesOf history) p hnd hm hp, rfl⟩

/-- Witness for C7 at a one-message window containing a triggering message. -/
theorem c7_witness :
    (((messagesOf exHistory).map getMessageId).Nodup) ∧
    exMsg ∈ messagesOf exHistory ∧ getMessageId exMsg ∉ ([] : List String) ∧
    hasTriggerEmoji exMsg ≠ [] ∧
    mkRecord exEnv exEnv.channelName exMsg ∈ (fetchNewTriggeredMessages exEnv exHistory []).1 :=
  ⟨by simp [messagesOf, exHistory], by simp [messagesOf, exHistory], by simp, by decide,
   ((c7_trigger_filter_correctness exEnv exHistory []).2 (by simp [messagesOf, exHistory])
      exMsg (by simp [messagesOf, exHistory]) (by simp) (by decide)).1⟩

/-- Claim C8: `append_to_sheet` on an empty list returns `true` having issued
no store call at all; on a non-empty list it issues exactly one batched
append to the data range, carrying every record serialized into the fixed
8-column order, and returns `false` exactly when that append raises a store
error, `true` otherwise. -/
theorem c8_append_to_sheet_contract :
    (∀ store : SheetStore, appendToSheet store [] = (true, [])) ∧
    (∀ (store : SheetStore) (data : List Record), data ≠ [] →
      dataRowsSent (appendToSheet store data).2 = [data.map serializeRow] ∧
      (appendToSheet store data).1 = isOkB store.dataAppendResult) := by
  constructor
  · intro store
    rfl
  · intro store data hd
    refine ⟨?_, appendToSheet_result store data hd⟩
    rw [appendToSheet_calls store data hd, dataRowsSent_append, dataRowsSent_headerPhase]
    simp [dataRowsSent]

/-- Witness for C8 at a concrete store and a one-record batch. -/
theorem c8_witness :
    ([exRecord] : List Record) ≠ [] ∧
    dataRowsSent (appendToSheet exStoreOk [exRecord]).2 = [[exRecord].map serializeRow] ∧
    (appendToSheet exStoreOk [exRecord]).1 = isOkB exStoreOk.dataAppendResult :=
  ⟨by simp, (c8_append_to_sheet_contract.2 exStoreOk [exRecord] (by simp)).1,
   (c8_append_to_sheet_contract.2 exStoreOk [exRecord] (by simp)).2⟩

/-- Claim C9: when the header-existence read raises a store error, the
`except HttpError: pass` swallows it, the data append is still issued (the
trace is exactly the failed read followed by the batched data append), and
the overall result is decided solely by the data append. -/
theorem c9_header_read_failure_swallowed (store : SheetStore) (data : List Record)
    (e : HttpErr) (hd : data ≠ []) (hr : store.headerRead = Except.error e) :
    (appendToSheet store data).2 =
      [SheetCall.getValues "Sheet2!A1:H1",
       SheetCall.appendValues "Sheet2!A:H" (data.map serializeRow)] ∧
    (appendToSheet store data).1 = isOkB store.dataAppendResult := by
  refine ⟨?_, appendToSheet_result store data hd⟩
  rw [appendToSheet_calls store data hd]
  unfold headerPhase
  rw [hr]
  rfl

/-- Witness for C9 at a store whose header read fails. -/
theorem c9_witness :
    ([exRecord] : List Record) ≠ [] ∧
    exStoreHdrFail.headerRead = Except.error HttpErr.httpError ∧
    (appendToSheet exStoreHdrFail [exRecord]).2 =
      [SheetCall.getValues "Sheet2!A1:H1",
       SheetCall.appendValues "Sheet2!A:H" ([exRecord].map serializeRow)] ∧
    (appendToSheet exStoreHdrFail [exRecord]).1 = isOkB exStoreHdrFail.dataAppendResult :=
  ⟨by simp, rfl,
   (c9_header_read_failure_swallowed exStoreHdrFail [exRecord] HttpErr.httpError
      (by simp) rfl).1,
   (c9_header_read_failure_swallowed exStoreHdrFail [exRecord] HttpErr.httpError
      (by simp) rfl).2⟩

/-- Claim C2: against an unchanged source with a working store, the second
cycle appends zero rows and returns 0; the first cycle appends exactly the
serialization of its collected records; and for every fingerprint not
already seen, exactly one record with that fingerprint is collected when
some window message with that fingerprint triggers (and none otherwise, or
when the fingerprint was already seen) — so each qualifying item reaches
the destination exactly once in total. -/
theorem c2_second_cycle_appends_nothing (w : World) (p : List String) (n : Nat)
    (h : w.store.dataAppendResult = Except.ok n) :
    (runMonitorCycle w p).count = (fetchNewTriggeredMessages w.env w.history p).1.length ∧
    (runMonitorCycle w (runMonitorCycle w p).mem).count = 0 ∧
    appendedRows (runMonitorCycle w (runMonitorCycle w p).mem).calls = [] ∧
    appendedRows (runMonitorCycle w p).calls =
      (fetchNewTriggeredMessages w.env w.history p).1.map serializeRow ∧
    (∀ f : String, f ∉ p →
      ((fetchNewTriggeredMessages w.env w.history p).1.countP (fun r => r.id == f)) =
        if ∃ m ∈ messagesOf w.history, getMessageId m = f ∧ hasTriggerEmoji m ≠ [] then 1
        else 0) ∧
    (∀ f : String, f ∈ p →
      ((fetchNewTriggeredMessages w.env w.history p).1.countP (fun r => r.id == f)) = 0) := by
  have h1 : (fetchNewTriggeredMessages w.env w.history ((runMonitorCycle w p).mem)).1 = [] := by
    rw [runMonitorCycle_mem, fetch_idem]
  refine ⟨runMonitorCycle_count_ok w p n h, runMonitorCycle_count_empty w _ h1, ?_, ?_, ?_, ?_⟩
  · rw [runMonitorCycle_calls_empty w _ h1]
    rfl
  · by_cases hfr : (fetchNewTriggeredMessages w.env w.history p).1 = []
    · rw [runMonitorCycle_calls_empty w p hfr, hfr]
      rfl
    · rw [runMonitorCycle_calls w p hfr, appendToSheet_calls _ _ hfr,
        appendedRows_header_and_data]
  · intro f hf
    rw [fetch_eq, processLoop_countP, if_neg hf]
  · intro f hf
    rw [fetch_eq, processLoop_countP, if_pos hf]

/-- Witness for C2 at a world with one triggering message and a working
store. -/
theorem c2_witness :
    exWorldOk.store.dataAppendResult = Except.ok 8 ∧
    (runMonitorCycle exWorldOk (runMonitorCycle exWorldOk []).mem).count = 0 :=
  ⟨rfl, (c2_second_cycle_appends_nothing exWorldOk [] 8 rfl).2.1⟩

/-- Claim C1 (code bug): when the sheet append fails the cycle does return 0
and persists nothing, but — contrary to the claim — the fingerprint of every
accepted item IS already in the in-memory seen set (line 280 marks during
the fetch, before the append), and consequently the next cycle against the
unchanged source issues no sheet calls at all: the items are not re-emitted
but silently lost for the life of the process. -/
theorem c1_failed_append_marks_in_memory (w : World) (p : List String) (e : HttpErr)
    (resp : HistoryResp) (m : Message)
    (hda : w.store.dataAppendResult = Except.error e)
    (hh : w.history = Except.ok resp) (hok : resp.ok = true)
    (hm : m ∈ resp.messages) (ht : hasTriggerEmoji m ≠ []) :
    (runMonitorCycle w p).count = 0 ∧
    (runMonitorCycle w p).persisted = none ∧
    getMessageId m ∈ (runMonitorCycle w p).mem ∧
    (runMonitorCycle w (runMonitorCycle w p).mem).calls = [] := by
  obtain ⟨hc, hpn⟩ := runMonitorCycle_fail w p e hda
  have hmm : m ∈ messagesOf w.history := by
    rw [hh]
    simp only [messagesOf]
    rw [if_pos hok]
    exact hm
  refine ⟨hc, hpn, ?_, ?_⟩
  · rw [runMonitorCycle_mem, fetch_eq]
    exact processLoop_marks w.env w.env.channelName m ht (messagesOf w.history) p hmm
  · apply runMonitorCycle_calls_empty
    rw [runMonitorCycle_mem, fetch_idem]

/-- Witness for C1 at a world whose data append fails. -/
theorem c1_witness :
    exWorldFail.store.dataAppendResult = Except.error HttpErr.httpError ∧
    exWorldFail.history = Except.ok { ok := true, messages := [exMsg] } ∧
    exMsg ∈ [exMsg] ∧ hasTriggerEmoji exMsg ≠ [] ∧
    ((runMonitorCycle exWorldFail []).count = 0 ∧
     (runMonitorCycle exWorldFail []).persisted = none ∧
     getMessageId exMsg ∈ (runMonitorCycle exWorldFail []).mem ∧
     (runMonitorCycle exWorldFail (runMonitorCycle exWorldFail []).mem).calls = []) :=
  ⟨rfl, rfl, by simp, by decide,
   c1_failed_append_marks_in_memory exWorldFail [] HttpErr.httpError
     { ok := true, messages := [exMsg] } exMsg rfl rfl rfl (by simp) (by decide)⟩

/-- Claim C10: a failing state-file write is caught inside `_save_state` and
never propagates: with a successful sheet append and a failing save, the
cycle still returns the number of collected records, nothing complete is
persisted, and the in-memory set keeps the new fingerprints. -/
theorem c10_save_failure_swallowed (w : World) (p : List String) (n : Nat)
    (hda : w.store.dataAppendResult = Except.ok n) (hs : w.saveOk = false) :
    (runMonitorCycle w p).count = (fetchNewTriggeredMessages w.env w.history p).1.length ∧
    (runMonitorCycle w p).persisted = none ∧
    (∀ (resp : HistoryResp) (m : Message), w.history = Except.ok resp → resp.ok = true →
      m ∈ resp.messages → hasTriggerEmoji m ≠ [] →
      getMessageId m ∈ (runMonitorCycle w p).mem) := by
  refine ⟨runMonitorCycle_count_ok w p n hda, runMonitorCycle_persisted_no_save w p hs, ?_⟩
  intro resp m hh hok hm ht
  have hmm : m ∈ messagesOf w.history := by
    rw [hh]
    simp only [messagesOf]
    rw [if_pos hok]
    exact hm
  rw [runMonitorCycle_mem, fetch_eq]
  exact processLoop_marks w.env w.env.channelName m ht (messagesOf w.history) p hmm

/-- Witness for C10 at a world with a working store and a failing save. -/
theorem c10_witness :
    exWorldNoSave.store.dataAppendResult = Except.ok 8 ∧ exWorldNoSave.saveOk = false ∧
    (runMonitorCycle exWorldNoSave []).persisted = none :=
  ⟨rfl, rfl, (c10_save_failure_swallowed exWorldNoSave [] 8 rfl rfl).2.1⟩

end SlackToSheet
